import Mathlib

/-!
Shallow embedding of the Northwind dashboard page
(`src/pages/Dashboard_northwin.py`): the query executor `execute_query`,
the three aggregation queries `load_sales_by_country`,
`load_profit_by_category`, `load_top_selling_products`, and the filter
wiring of `main`.  SQL queries are embedded as list joins / group-bys over
an explicit database state; DataFrames are tabular values; exceptions are
modelled by `Option`; money is modelled by `ℚ` with explicit 2-decimal
rounding as in the SQL `ROUND(_, 2)` calls.
-/

/-- SQLite `ROUND(x, 2)`: round to 2 decimal places, half away from zero. -/
def round2 (x : ℚ) : ℚ :=
  if 0 ≤ x then (((x * 100 + 1/2).floor : ℤ) : ℚ) / 100
  else -((((-(x * 100) + 1/2).floor : ℤ) : ℚ) / 100)

/-- Deduplicate a list keeping the FIRST occurrence of each element, in
order — the semantics of pandas `Series.unique()` and the row-set produced
by SQL `GROUP BY` / `COUNT(DISTINCT _)`.  `seen` accumulates the elements
already emitted. -/
def dedupFirstAux {α : Type} [DecidableEq α] : List α → List α → List α
  | [], _ => []
  | x :: xs, seen =>
    if x ∈ seen then dedupFirstAux xs seen
    else x :: dedupFirstAux xs (x :: seen)

/-- `dedupFirst l` is `l` with later duplicates removed. -/
def dedupFirst {α : Type} [DecidableEq α] (l : List α) : List α :=
  dedupFirstAux l []

/-! ### Database state (the backing store's five tables, §3 of the spec) -/

/-- A row of the `[Order]` table: columns used by the queries. -/
structure Order where
  id : Nat
  customerId : Nat
deriving DecidableEq, Repr

/-- A row of the `Customer` table. -/
structure Customer where
  id : Nat
  country : String
deriving DecidableEq, Repr

/-- A row of the `OrderDetail` table (one order line). -/
structure OrderDetail where
  orderId : Nat
  productId : Nat
  unitPrice : ℚ
  quantity : Int
  discount : ℚ
deriving DecidableEq, Repr

/-- A row of the `Product` table. -/
structure Product where
  id : Nat
  productName : String
  categoryId : Nat
deriving DecidableEq, Repr

/-- A row of the `Category` table. -/
structure Category where
  id : Nat
  categoryName : String
deriving DecidableEq, Repr

/-- The state of the backing store. -/
structure DB where
  orders : List Order
  customers : List Customer
  orderDetails : List OrderDetail
  products : List Product
  categories : List Category
deriving DecidableEq, Repr

/-! ### DataFrames -/

/-- A cell value of a pandas DataFrame as used here: a string or a number
(numbers, including integer counts, modelled by `ℚ`). -/
inductive Value where
  | vstr : String → Value
  | vnum : ℚ → Value
deriving DecidableEq, Repr

/-- A pandas DataFrame: a column schema and rows of cells. -/
structure DataFrame where
  cols : List String
  rows : List (List Value)
deriving DecidableEq, Repr

/-- `pd.DataFrame()`: the empty table — zero rows AND no columns. -/
def emptyDF : DataFrame := ⟨[], []⟩

/-- Position of column `c`, `none` if absent. -/
def DataFrame.colIdx (df : DataFrame) (c : String) : Option Nat :=
  df.cols.findIdx? (fun x => x = c)

/-- `df[c]` — column projection; `none` models the `KeyError` pandas
raises when the column does not exist. -/
def DataFrame.getCol (df : DataFrame) (c : String) : Option (List Value) :=
  (df.colIdx c).map (fun i => df.rows.map (fun r => r.getD i (Value.vstr "")))

/-- `df[df[c].isin(sel)]` — keep the rows whose `c`-cell is a member of
`sel`; `none` models the `KeyError` on a missing column. -/
def DataFrame.filterByCol (df : DataFrame) (c : String) (sel : List Value) :
    Option DataFrame :=
  (df.colIdx c).map (fun i =>
    ⟨df.cols, df.rows.filter (fun r => decide (r.getD i (Value.vstr "") ∈ sel))⟩)

/-! ### Query 1: sales by country (`load_sales_by_country`, lines 79-88)

`FROM [Order] o JOIN Customer cu ON o.CustomerId = cu.Id
 JOIN OrderDetail od ON o.Id = od.OrderId` -/

/-- One joined row of query 1: country, order id, `UnitPrice * Quantity`. -/
structure SalesLine where
  country : String
  orderId : Nat
  amount : ℚ
deriving DecidableEq, Repr

/-- The join of query 1. -/
def salesLines (db : DB) : List SalesLine :=
  db.orders.flatMap (fun o =>
    (db.customers.filter (fun cu => cu.id == o.customerId)).flatMap (fun cu =>
      (db.orderDetails.filter (fun od => od.orderId == o.id)).map (fun od =>
        ⟨cu.country, o.id, od.unitPrice * (od.quantity : ℚ)⟩)))

/-- The order lines of country `c` (the `GROUP BY cu.Country` group). -/
def countryLines (db : DB) (c : String) : List SalesLine :=
  (salesLines db).filter (fun l => l.country == c)

/-- `ROUND(SUM(od.UnitPrice * od.Quantity), 2)` for country `c`. -/
def countryTotalSales (db : DB) (c : String) : ℚ :=
  round2 (((countryLines db c).map SalesLine.amount).sum)

/-- `COUNT(DISTINCT o.Id)` for country `c`. -/
def countryTotalOrders (db : DB) (c : String) : Nat :=
  (dedupFirst ((countryLines db c).map SalesLine.orderId)).length

/-- One result row of query 1. -/
structure CountryRow where
  country : String
  totalSales : ℚ
  totalOrders : Nat
deriving DecidableEq, Repr

/-- `ORDER BY TotalSales DESC` as a relation on result rows. -/
def cmpCountry (a b : CountryRow) : Prop := b.totalSales ≤ a.totalSales

instance : DecidableRel cmpCountry := fun a b =>
  inferInstanceAs (Decidable (b.totalSales ≤ a.totalSales))

instance : IsTotal CountryRow cmpCountry :=
  ⟨fun a b => le_total b.totalSales a.totalSales⟩

instance : IsTrans CountryRow cmpCountry :=
  ⟨fun _ _ _ h1 h2 => le_trans h2 h1⟩

/-- The distinct countries of the joined rows (the `GROUP BY` keys). -/
def salesKeys (db : DB) : List String :=
  dedupFirst ((salesLines db).map SalesLine.country)

/-- The aggregate row of one country. -/
def mkCountryRow (db : DB) (c : String) : CountryRow :=
  ⟨c, countryTotalSales db c, countryTotalOrders db c⟩

/-- Result rows of query 1: one aggregate row per distinct country,
ordered by `TotalSales DESC`. -/
def salesByCountryRows (db : DB) : List CountryRow :=
  List.insertionSort cmpCountry ((salesKeys db).map (mkCountryRow db))

/-- Query 1 as a DataFrame. -/
def salesByCountryDF (db : DB) : DataFrame :=
  ⟨["Country", "TotalSales", "TotalOrders"],
   (salesByCountryRows db).map (fun r =>
     [Value.vstr r.country, Value.vnum r.totalSales, Value.vnum r.totalOrders])⟩

/-! ### Query 2: profit by category (`load_profit_by_category`, lines 94-103)

`FROM OrderDetail od JOIN Product p ON od.ProductId = p.Id
 JOIN Category c ON p.CategoryId = c.Id` -/

/-- One joined row of query 2: category name, `UnitPrice * Quantity`,
`UnitPrice * Quantity * Discount`. -/
structure CategoryLine where
  categoryName : String
  grossAmount : ℚ
  discountAmount : ℚ
deriving DecidableEq, Repr

/-- The join of query 2. -/
def categoryLines (db : DB) : List CategoryLine :=
  db.orderDetails.flatMap (fun od =>
    (db.products.filter (fun p => p.id == od.productId)).flatMap (fun p =>
      (db.categories.filter (fun c => c.id == p.categoryId)).map (fun c =>
        ⟨c.categoryName, od.unitPrice * (od.quantity : ℚ),
         od.unitPrice * (od.quantity : ℚ) * od.discount⟩)))

/-- The order lines of category `n` (the `GROUP BY c.CategoryName` group). -/
def categoryLinesOf (db : DB) (n : String) : List CategoryLine :=
  (categoryLines db).filter (fun l => l.categoryName == n)

/-- `ROUND(SUM(UnitPrice*Quantity) - SUM(UnitPrice*Quantity*Discount), 2)`
for category `n`. -/
def categoryProfit (db : DB) (n : String) : ℚ :=
  round2 ((((categoryLinesOf db n).map CategoryLine.grossAmount).sum)
    - (((categoryLinesOf db n).map CategoryLine.discountAmount).sum))

/-- One result row of query 2. -/
structure CategoryRow where
  categoryName : String
  profit : ℚ
deriving DecidableEq, Repr

/-- `ORDER BY Profit DESC` as a relation on result rows. -/
def cmpCategory (a b : CategoryRow) : Prop := b.profit ≤ a.profit

instance : DecidableRel cmpCategory := fun a b =>
  inferInstanceAs (Decidable (b.profit ≤ a.profit))

instance : IsTotal CategoryRow cmpCategory :=
  ⟨fun a b => le_total b.profit a.profit⟩

instance : IsTrans CategoryRow cmpCategory :=
  ⟨fun _ _ _ h1 h2 => le_trans h2 h1⟩

/-- The distinct category names of the joined rows. -/
def categoryKeys (db : DB) : List String :=
  dedupFirst ((categoryLines db).map CategoryLine.categoryName)

/-- The aggregate row of one category. -/
def mkCategoryRow (db : DB) (n : String) : CategoryRow :=
  ⟨n, categoryProfit db n⟩

/-- Result rows of query 2: one aggregate row per distinct category name,
ordered by `Profit DESC`. -/
def profitByCategoryRows (db : DB) : List CategoryRow :=
  List.insertionSort cmpCategory ((categoryKeys db).map (mkCategoryRow db))

/-- Query 2 as a DataFrame. -/
def profitByCategoryDF (db : DB) : DataFrame :=
  ⟨["CategoryName", "Profit"],
   (profitByCategoryRows db).map (fun r =>
     [Value.vstr r.categoryName, Value.vnum r.profit])⟩

/-! ### Query 3: top-selling products (`load_top_selling_products`,
lines 109-118)

`FROM OrderDetail od JOIN Product p ON od.ProductId = p.Id … LIMIT 10` -/

/-- One joined row of query 3: product name, quantity,
`UnitPrice * Quantity`. -/
structure ProductLine where
  productName : String
  quantity : Int
  amount : ℚ
deriving DecidableEq, Repr

/-- The join of query 3. -/
def productLines (db : DB) : List ProductLine :=
  db.orderDetails.flatMap (fun od =>
    (db.products.filter (fun p => p.id == od.productId)).map (fun p =>
      ⟨p.productName, od.quantity, od.unitPrice * (od.quantity : ℚ)⟩))

/-- The order lines of product `n` (the `GROUP BY p.ProductName` group). -/
def productLinesOf (db : DB) (n : String) : List ProductLine :=
  (productLines db).filter (fun l => l.productName == n)

/-- `SUM(od.Quantity)` for product `n`. -/
def productTotalSold (db : DB) (n : String) : Int :=
  ((productLinesOf db n).map ProductLine.quantity).sum

/-- `ROUND(SUM(od.UnitPrice * od.Quantity), 2)` for product `n`. -/
def productTotalRevenue (db : DB) (n : String) : ℚ :=
  round2 (((productLinesOf db n).map ProductLine.amount).sum)

/-- One result row of query 3. -/
structure ProductRow where
  productName : String
  totalSold : Int
  totalRevenue : ℚ
deriving DecidableEq, Repr

/-- `ORDER BY TotalSold DESC` as a relation on result rows. -/
def cmpProduct (a b : ProductRow) : Prop := b.totalSold ≤ a.totalSold

instance : DecidableRel cmpProduct := fun a b =>
  inferInstanceAs (Decidable (b.totalSold ≤ a.totalSold))

instance : IsTotal ProductRow cmpProduct :=
  ⟨fun a b => le_total b.totalSold a.totalSold⟩

instance : IsTrans ProductRow cmpProduct :=
  ⟨fun _ _ _ h1 h2 => le_trans h2 h1⟩

/-- The distinct product names of the joined rows. -/
def productKeys (db : DB) : List String :=
  dedupFirst ((productLines db).map ProductLine.productName)

/-- The aggregate row of one product. -/
def mkProductRow (db : DB) (n : String) : ProductRow :=
  ⟨n, productTotalSold db n, productTotalRevenue db n⟩

/-- Result rows of query 3: one aggregate row per distinct product name,
ordered by `TotalSold DESC`, `LIMIT 10`. -/
def topSellingProductsRows (db : DB) : List ProductRow :=
  (List.insertionSort cmpProduct ((productKeys db).map (mkProductRow db))).take 10

/-- Query 3 as a DataFrame. -/
def topSellingProductsDF (db : DB) : DataFrame :=
  ⟨["ProductName", "TotalSold", "TotalRevenue"],
   (topSellingProductsRows db).map (fun r =>
     [Value.vstr r.productName, Value.vnum (r.totalSold : ℚ),
      Value.vnum r.totalRevenue])⟩

/-! ### The query executor (`execute_query`, lines 46-74)

```
try:
    conn = sqlite3.connect("data/Northwind_small.sqlite")   -- may raise
    df = pd.read_sql_query(query, conn)                     -- may raise
    return df
except Exception as e:
    st.error(...); return pd.DataFrame()
finally:
    if 'conn' in locals(): conn.close()
```

The environment's behaviour is made explicit: the connect step may raise,
the execution step may raise, or both succeed against a database state. -/

/-- Lifecycle events of the sqlite connection opened by `execute_query`. -/
inductive ConnEvent where
  | opened : ConnEvent
  | closed : ConnEvent
deriving DecidableEq, Repr

/-- How the backing store behaves for one call of `execute_query`. -/
inductive StoreBehavior where
  | connectRaises : StoreBehavior
  | execRaises : StoreBehavior
  | succeeds : DB → StoreBehavior
deriving DecidableEq, Repr

/-- Whether the behaviour is a connection or execution failure. -/
def StoreBehavior.isFailure : StoreBehavior → Bool
  | .connectRaises => true
  | .execRaises => true
  | .succeeds _ => false

/-- What one call of `execute_query` produced: the returned DataFrame, the
connection events in order, and whether `st.error` showed a message. -/
structure ExecResult where
  df : DataFrame
  events : List ConnEvent
  errorShown : Bool
deriving DecidableEq, Repr

/-- `execute_query`, one branch per control path of the `try/except/finally`:
if `connect` raises, `conn` is not in `locals()`, so `finally` closes
nothing and `except` returns `pd.DataFrame()`; if execution raises, the
opened connection is closed by `finally` and `except` returns
`pd.DataFrame()`; on success the opened connection is closed by `finally`
and the query result is returned. -/
def execute_query (beh : StoreBehavior) (q : DB → DataFrame) : ExecResult :=
  match beh with
  | .connectRaises => ⟨emptyDF, [], true⟩
  | .execRaises => ⟨emptyDF, [.opened, .closed], true⟩
  | .succeeds db => ⟨q db, [.opened, .closed], false⟩

/-- `load_sales_by_country` (lines 77-89). -/
def load_sales_by_country (beh : StoreBehavior) : ExecResult :=
  execute_query beh salesByCountryDF

/-- `load_profit_by_category` (lines 92-104). -/
def load_profit_by_category (beh : StoreBehavior) : ExecResult :=
  execute_query beh profitByCategoryDF

/-- `load_top_selling_products` (lines 107-119). -/
def load_top_selling_products (beh : StoreBehavior) : ExecResult :=
  execute_query beh topSellingProductsDF

/-! ### The filter wiring of `main` (lines 122-203) -/

/-- Options and default of the country multiselect (lines 141-142):
`sales_by_country['Country'].dropna().unique()[:5]`.  Strings carry no
`NaN` in this model, so `dropna` is the identity; `none` models the
`KeyError` when the `Country` column is missing. -/
def defaultCountries (sales : DataFrame) : Option (List Value) :=
  (sales.getCol "Country").map (fun vs => (dedupFirst vs).take 5)

/-- Options and default of the category multiselect (lines 150-151):
`profit_by_category['CategoryName'].unique()`. -/
def defaultCategories (profit : DataFrame) : Option (List Value) :=
  (profit.getCol "CategoryName").map dedupFirst

/-- What `main` ends up passing to the chart / table calls. -/
structure PageData where
  filteredCountrySales : DataFrame
  filteredCategoryProfit : DataFrame
  displayedTopProducts : DataFrame
deriving DecidableEq, Repr

/-- The data flow of `main`: load the three tables, build the two
multiselects (whose option lists index the `Country` / `CategoryName`
columns — a `KeyError`, i.e. `none`, when absent), take the user's
selections (`none` = the widget's default), filter the country-sales and
category-profit tables by membership (lines 158-159), and pass the
top-selling-products table to `st.dataframe` unfiltered (line 200). -/
def mainFlow (beh : StoreBehavior)
    (userSelC userSelCat : Option (List Value)) : Option PageData :=
  (defaultCountries (load_sales_by_country beh).df).bind (fun defC =>
    (defaultCategories (load_profit_by_category beh).df).bind (fun defCat =>
      ((load_sales_by_country beh).df.filterByCol "Country"
          (userSelC.getD defC)).bind (fun f1 =>
        ((load_profit_by_category beh).df.filterByCol "CategoryName"
            (userSelCat.getD defCat)).map (fun f2 =>
          ⟨f1, f2, (load_top_selling_products beh).df⟩))))

/-! ### Concrete database states used as test inputs -/

/-- A store with one customer, one order, one order line. -/
def exampleDB : DB :=
  ⟨[⟨1, 1⟩], [⟨1, "UK"⟩], [⟨1, 1, 18, 5, 0⟩], [⟨1, "Chai", 1⟩],
   [⟨1, "Beverages"⟩]⟩

/-- A store where two countries have identical total sales. -/
def tieDB : DB :=
  ⟨[⟨1, 1⟩, ⟨2, 2⟩], [⟨1, "France"⟩, ⟨2, "Spain"⟩],
   [⟨1, 1, 10, 1, 0⟩, ⟨2, 1, 10, 1, 0⟩], [⟨1, "Chai", 1⟩],
   [⟨1, "Beverages"⟩]⟩

/-- The page data produced by a successful load of `exampleDB` when the
user empties both multiselects. -/
def pdC6 : PageData :=
  (mainFlow (StoreBehavior.succeeds exampleDB) (some []) (some [])).getD
    ⟨emptyDF, emptyDF, emptyDF⟩

/-! ### Lemmas about `dedupFirst` -/

theorem mem_dedupFirstAux {α : Type} [DecidableEq α] (a : α) :
    ∀ (l seen : List α), a ∈ dedupFirstAux l seen ↔ a ∈ l ∧ a ∉ seen := by
  intro l
  induction l with
  | nil => intro seen; simp [dedupFirstAux]
  | cons x xs ih =>
    intro seen
    by_cases hx : x ∈ seen
    · simp only [dedupFirstAux, if_pos hx]
      rw [ih]
      constructor
      · rintro ⟨h1, h2⟩
        exact ⟨List.mem_cons_of_mem _ h1, h2⟩
      · rintro ⟨h1, h2⟩
        rcases List.mem_cons.mp h1 with rfl | h1
        · exact absurd hx h2
        · exact ⟨h1, h2⟩
    · simp only [dedupFirstAux, if_neg hx]
      constructor
      · intro h
        rcases List.mem_cons.mp h with rfl | h
        · exact ⟨List.mem_cons_self _ _, hx⟩
        · obtain ⟨h1, h2⟩ := (ih (x :: seen)).mp h
          exact ⟨List.mem_cons_of_mem _ h1,
            fun hs => h2 (List.mem_cons_of_mem _ hs)⟩
      · rintro ⟨h1, h2⟩
        rcases List.mem_cons.mp h1 with rfl | h1
        · exact List.mem_cons_self _ _
        · by_cases hax : a = x
          · exact hax ▸ List.mem_cons_self _ _
          · refine List.mem_cons_of_mem _ ((ih (x :: seen)).mpr ⟨h1, ?_⟩)
            intro hs
            rcases List.mem_cons.mp hs with h | h
            · exact hax h
            · exact h2 h

theorem mem_dedupFirst {α : Type} [DecidableEq α] (a : α) (l : List α) :
    a ∈ dedupFirst l ↔ a ∈ l := by
  simp [dedupFirst, mem_dedupFirstAux]

theorem dedupFirstAux_pairwise {α : Type} [DecidableEq α] :
    ∀ (l seen : List α), (dedupFirstAux l seen).Pairwise (fun a b => a ≠ b) := by
  intro l
  induction l with
  | nil => intro seen; simp [dedupFirstAux]
  | cons x xs ih =>
    intro seen
    by_cases hx : x ∈ seen
    · simpa [dedupFirstAux, if_pos hx] using ih seen
    · simp only [dedupFirstAux, if_neg hx, List.pairwise_cons]
      refine ⟨fun b hb => ?_, ih (x :: seen)⟩
      have := (mem_dedupFirstAux b xs (x :: seen)).mp hb
      intro h
      exact this.2 (h ▸ List.mem_cons_self x seen)

theorem dedupFirst_pairwise {α : Type} [DecidableEq α] (l : List α) :
    (dedupFirst l).Pairwise (fun a b => a ≠ b) :=
  dedupFirstAux_pairwise l []

theorem dedupFirstAux_eq_self {α : Type} [DecidableEq α] :
    ∀ (l seen : List α), l.Pairwise (fun a b => a ≠ b) →
      (∀ a ∈ l, a ∉ seen) → dedupFirstAux l seen = l := by
  intro l
  induction l with
  | nil => intro seen _ _; rfl
  | cons x xs ih =>
    intro seen hp hs
    have hx : x ∉ seen := hs x (List.mem_cons_self x xs)
    rw [List.pairwise_cons] at hp
    simp only [dedupFirstAux, if_neg hx]
    congr 1
    refine ih (x :: seen) hp.2 ?_
    intro a ha
    simp only [List.mem_cons, not_or]
    exact ⟨fun h => (hp.1 a ha) h.symm, hs a (List.mem_cons_of_mem _ ha)⟩

theorem dedupFirst_eq_self {α : Type} [DecidableEq α] (l : List α)
    (h : l.Pairwise (fun a b => a ≠ b)) : dedupFirst l = l :=
  dedupFirstAux_eq_self l [] h (fun a _ => List.not_mem_nil a)

/-! ### Structure lemmas for the three aggregation queries -/

theorem salesRows_perm (db : DB) :
    (salesByCountryRows db).Perm ((salesKeys db).map (mkCountryRow db)) :=
  List.perm_insertionSort cmpCountry _

theorem map_country_mkCountryRow (db : DB) :
    ((salesKeys db).map (mkCountryRow db)).map CountryRow.country = salesKeys db := by
  rw [List.map_map]
  exact List.map_id'' (fun _ => rfl) _

theorem salesRows_map_country_perm (db : DB) :
    ((salesByCountryRows db).map CountryRow.country).Perm (salesKeys db) := by
  have h := (salesRows_perm db).map CountryRow.country
  rwa [map_country_mkCountryRow] at h

theorem salesRows_country_pairwise (db : DB) :
    ((salesByCountryRows db).map CountryRow.country).Pairwise (fun a b => a ≠ b) :=
  ((salesRows_map_country_perm db).pairwise_iff (fun h => h.symm)).mpr
    (dedupFirst_pairwise _)

theorem salesRows_mem_country (db : DB) (c : String) :
    c ∈ (salesByCountryRows db).map CountryRow.country ↔
      c ∈ (salesLines db).map SalesLine.country := by
  rw [(salesRows_map_country_perm db).mem_iff]
  exact mem_dedupFirst c _

theorem salesRows_row_eq (db : DB) (r : CountryRow)
    (h : r ∈ salesByCountryRows db) : r = mkCountryRow db r.country := by
  have h2 : r ∈ (salesKeys db).map (mkCountryRow db) :=
    (salesRows_perm db).mem_iff.mp h
  obtain ⟨c, _, rfl⟩ := List.mem_map.mp h2
  rfl

theorem salesRows_sorted (db : DB) :
    ((salesByCountryRows db).map CountryRow.totalSales).Pairwise
      (fun a b => b ≤ a) :=
  List.pairwise_map.mpr (List.sorted_insertionSort cmpCountry _)

theorem categoryRows_perm (db : DB) :
    (profitByCategoryRows db).Perm ((categoryKeys db).map (mkCategoryRow db)) :=
  List.perm_insertionSort cmpCategory _

theorem map_name_mkCategoryRow (db : DB) :
    ((categoryKeys db).map (mkCategoryRow db)).map CategoryRow.categoryName =
      categoryKeys db := by
  rw [List.map_map]
  exact List.map_id'' (fun _ => rfl) _

theorem categoryRows_map_name_perm (db : DB) :
    ((profitByCategoryRows db).map CategoryRow.categoryName).Perm
      (categoryKeys db) := by
  have h := (categoryRows_perm db).map CategoryRow.categoryName
  rwa [map_name_mkCategoryRow] at h

theorem categoryRows_name_pairwise (db : DB) :
    ((profitByCategoryRows db).map CategoryRow.categoryName).Pairwise
      (fun a b => a ≠ b) :=
  ((categoryRows_map_name_perm db).pairwise_iff (fun h => h.symm)).mpr
    (dedupFirst_pairwise _)

theorem categoryRows_mem_name (db : DB) (n : String) :
    n ∈ (profitByCategoryRows db).map CategoryRow.categoryName ↔
      n ∈ (categoryLines db).map CategoryLine.categoryName := by
  rw [(categoryRows_map_name_perm db).mem_iff]
  exact mem_dedupFirst n _

theorem categoryRows_row_eq (db : DB) (r : CategoryRow)
    (h : r ∈ profitByCategoryRows db) : r = mkCategoryRow db r.categoryName := by
  have h2 : r ∈ (categoryKeys db).map (mkCategoryRow db) :=
    (categoryRows_perm db).mem_iff.mp h
  obtain ⟨n, _, rfl⟩ := List.mem_map.mp h2
  rfl

theorem categoryRows_sorted (db : DB) :
    ((profitByCategoryRows db).map CategoryRow.profit).Pairwise
      (fun a b => b ≤ a) :=
  List.pairwise_map.mpr (List.sorted_insertionSort cmpCategory _)

theorem productRows_take_mem (db : DB) (r : ProductRow)
    (h : r ∈ topSellingProductsRows db) :
    r ∈ (productKeys db).map (mkProductRow db) :=
  (List.perm_insertionSort cmpProduct _).mem_iff.mp (List.mem_of_mem_take h)

theorem productRows_row_eq (db : DB) (r : ProductRow)
    (h : r ∈ topSellingProductsRows db) : r = mkProductRow db r.productName := by
  obtain ⟨n, _, rfl⟩ := List.mem_map.mp (productRows_take_mem db r h)
  rfl

theorem productRows_length (db : DB) : (topSellingProductsRows db).length ≤ 10 :=
  List.length_take_le 10 _

theorem map_name_mkProductRow (db : DB) :
    ((productKeys db).map (mkProductRow db)).map ProductRow.productName =
      productKeys db := by
  rw [List.map_map]
  exact List.map_id'' (fun _ => rfl) _

theorem productSortedRows_map_name_perm (db : DB) :
    ((List.insertionSort cmpProduct
      ((productKeys db).map (mkProductRow db))).map ProductRow.productName).Perm
      (productKeys db) := by
  have h := (List.perm_insertionSort cmpProduct
    ((productKeys db).map (mkProductRow db))).map ProductRow.productName
  rwa [map_name_mkProductRow] at h

theorem productRows_name_pairwise (db : DB) :
    ((topSellingProductsRows db).map ProductRow.productName).Pairwise
      (fun a b => a ≠ b) := by
  have hall := ((productSortedRows_map_name_perm db).pairwise_iff
    (fun h => h.symm)).mpr (dedupFirst_pairwise _)
  exact hall.sublist ((List.take_sublist 10 _).map ProductRow.productName)

theorem productRows_sorted (db : DB) :
    ((topSellingProductsRows db).map ProductRow.totalSold).Pairwise
      (fun a b => b ≤ a) := by
  have hall : ((List.insertionSort cmpProduct
      ((productKeys db).map (mkProductRow db))).map ProductRow.totalSold).Pairwise
      (fun a b => b ≤ a) :=
    List.pairwise_map.mpr (List.sorted_insertionSort cmpProduct _)
  exact hall.sublist ((List.take_sublist 10 _).map ProductRow.totalSold)

/-! ### Lemmas about the DataFrame filter -/

theorem filterByCol_full (df : DataFrame) (c : String) (i : Nat)
    (hidx : df.colIdx c = some i) :
    df.filterByCol c (dedupFirst ((df.getCol c).getD [])) = some df := by
  unfold DataFrame.filterByCol DataFrame.getCol
  rw [hidx]
  simp only [Option.map_some', Option.getD_some]
  have hfil : df.rows.filter (fun r => decide (r.getD i (Value.vstr "") ∈
      dedupFirst (df.rows.map (fun r => r.getD i (Value.vstr ""))))) = df.rows := by
    apply List.filter_eq_self.mpr
    intro r hr
    exact decide_eq_true ((mem_dedupFirst _ _).mpr (List.mem_map_of_mem _ hr))
  rw [hfil]

theorem filterByCol_empty (df : DataFrame) (c : String) (i : Nat)
    (hidx : df.colIdx c = some i) :
    df.filterByCol c [] = some ⟨df.cols, []⟩ := by
  unfold DataFrame.filterByCol
  rw [hidx]
  simp only [Option.map_some']
  have hfil : df.rows.filter (fun r => decide (r.getD i (Value.vstr "") ∈
      ([] : List Value))) = [] := by
    apply List.filter_eq_nil_iff.mpr
    intro a _
    simp
  rw [hfil]

theorem perm_pair_same {α : Type} {l : List α} {a : α} (h : l.Perm [a, a]) :
    l = [a, a] := by
  have hlen : l.length = 2 := by simpa using h.length_eq
  obtain ⟨x, y, rfl⟩ := List.length_eq_two.mp hlen
  have hx : x = a := by
    have := h.mem_iff.mp (List.mem_cons_self x [y])
    simpa using this
  have hy : y = a := by
    have := h.mem_iff.mp (List.mem_cons_of_mem x (List.mem_cons_self y []))
    simpa using this
  rw [hx, hy]

/-! ### Claims -/

/-- **C1 (amended)**: for every state of the backing store,
`sales_by_country()` returns one row per customer country (countries are
pairwise distinct, and a country appears iff it has at least one order
line), where `total_sales` equals the sum of `unit_price × quantity` over
that country's order lines rounded to 2 decimals and `total_orders`
equals the count of distinct orders for that country, and the rows are
sorted descending (non-strictly: ties are adjacent) by `total_sales`. -/
theorem c1_sales_by_country (db : DB) :
    ((salesByCountryRows db).map CountryRow.country).Pairwise (fun a b => a ≠ b)
    ∧ (∀ c : String, c ∈ (salesByCountryRows db).map CountryRow.country ↔
        c ∈ (salesLines db).map SalesLine.country)
    ∧ (∀ r ∈ salesByCountryRows db,
        r.totalSales = round2 (((countryLines db r.country).map SalesLine.amount).sum)
        ∧ r.totalOrders =
            (dedupFirst ((countryLines db r.country).map SalesLine.orderId)).length)
    ∧ ((salesByCountryRows db).map CountryRow.totalSales).Pairwise
        (fun a b => b ≤ a) := by
  refine ⟨salesRows_country_pairwise db, salesRows_mem_country db, ?_,
    salesRows_sorted db⟩
  intro r hr
  have h := salesRows_row_eq db r hr
  constructor
  · conv_lhs => rw [h]
    rfl
  · conv_lhs => rw [h]
    rfl

/-- **C1 counterexample**: on a store where two countries (France and
Spain) have identical total sales, the rows of `sales_by_country()` are
NOT strictly descending in `total_sales` — the claim's "sorted strictly
descending" fails whenever two countries tie. -/
theorem c1_counterexample :
    ¬ ((salesByCountryRows tieDB).map CountryRow.totalSales).Pairwise
      (fun a b => b < a) := by
  intro hp
  have hperm : ((salesByCountryRows tieDB).map CountryRow.totalSales).Perm
      [countryTotalSales tieDB "France", countryTotalSales tieDB "Spain"] := by
    have h := (salesRows_perm tieDB).map CountryRow.totalSales
    have hkeys : (salesKeys tieDB).map (mkCountryRow tieDB) =
        [mkCountryRow tieDB "France", mkCountryRow tieDB "Spain"] := rfl
    rw [hkeys] at h
    exact h
  have ht : countryTotalSales tieDB "Spain" = countryTotalSales tieDB "France" :=
    rfl
  rw [ht] at hperm
  have heq := perm_pair_same hperm
  rw [heq] at hp
  rcases List.pairwise_cons.mp hp with ⟨h1, _⟩
  exact absurd (h1 _ (List.mem_cons_self _ _)) (lt_irrefl _)

/-- **C2**: for every state of the backing store, `profit_by_category()`
returns one row per category name (names pairwise distinct, a name appears
iff it has at least one order line), whose profit equals the sum of
`unit_price × quantity` minus the sum of `unit_price × quantity × discount`
over that category's line items, rounded to 2 decimals, with rows ordered
descending by profit. -/
theorem c2_profit_by_category (db : DB) :
    ((profitByCategoryRows db).map CategoryRow.categoryName).Pairwise
      (fun a b => a ≠ b)
    ∧ (∀ n : String, n ∈ (profitByCategoryRows db).map CategoryRow.categoryName ↔
        n ∈ (categoryLines db).map CategoryLine.categoryName)
    ∧ (∀ r ∈ profitByCategoryRows db,
        r.profit = round2
          ((((categoryLinesOf db r.categoryName).map CategoryLine.grossAmount).sum)
          - (((categoryLinesOf db r.categoryName).map CategoryLine.discountAmount).sum)))
    ∧ ((profitByCategoryRows db).map CategoryRow.profit).Pairwise
        (fun a b => b ≤ a) := by
  refine ⟨categoryRows_name_pairwise db, categoryRows_mem_name db, ?_,
    categoryRows_sorted db⟩
  intro r hr
  have h := categoryRows_row_eq db r hr
  conv_lhs => rw [h]
  rfl

/-- **C3**: for every state of the backing store,
`top_selling_products()` returns at most 10 rows, one per product name
(names pairwise distinct), sorted descending by `total_sold` = sum of
quantity, with `total_revenue` equal to the sum of
`unit_price × quantity` rounded to 2 decimals. -/
theorem c3_top_selling_products (db : DB) :
    (topSellingProductsRows db).length ≤ 10
    ∧ ((topSellingProductsRows db).map ProductRow.productName).Pairwise
        (fun a b => a ≠ b)
    ∧ (∀ r ∈ topSellingProductsRows db,
        r.totalSold = ((productLinesOf db r.productName).map ProductLine.quantity).sum
        ∧ r.totalRevenue =
            round2 (((productLinesOf db r.productName).map ProductLine.amount).sum))
    ∧ ((topSellingProductsRows db).map ProductRow.totalSold).Pairwise
        (fun a b => b ≤ a) := by
  refine ⟨productRows_length db, productRows_name_pairwise db, ?_,
    productRows_sorted db⟩
  intro r hr
  have h := productRows_row_eq db r hr
  constructor
  · conv_lhs => rw [h]
    rfl
  · conv_lhs => rw [h]
    rfl

/-- **C4**: every connection or execution failure inside `execute_query`
(the two failure behaviours enumerate them) is caught rather than
propagated: a user-visible message is shown and the returned table is
`pd.DataFrame()` — zero rows and no columns; in particular all three query
functions return the empty table when the backing store is unreachable. -/
theorem c4_error_returns_empty (q : DB → DataFrame) :
    (execute_query StoreBehavior.connectRaises q).df = emptyDF
    ∧ (execute_query StoreBehavior.connectRaises q).errorShown = true
    ∧ (execute_query StoreBehavior.execRaises q).df = emptyDF
    ∧ (execute_query StoreBehavior.execRaises q).errorShown = true
    ∧ emptyDF.rows = [] ∧ emptyDF.cols = []
    ∧ (load_sales_by_country StoreBehavior.connectRaises).df = emptyDF
    ∧ (load_profit_by_category StoreBehavior.connectRaises).df = emptyDF
    ∧ (load_top_selling_products StoreBehavior.connectRaises).df = emptyDF
    ∧ (load_sales_by_country StoreBehavior.execRaises).df = emptyDF
    ∧ (load_profit_by_category StoreBehavior.execRaises).df = emptyDF
    ∧ (load_top_selling_products StoreBehavior.execRaises).df = emptyDF :=
  ⟨rfl, rfl, rfl, rfl, rfl, rfl, rfl, rfl, rfl, rfl, rfl, rfl⟩

/-- **C5**: on every behaviour of the store (success, connection failure,
execution failure) `execute_query` either never opens a connection (the
connect call itself raised, so there is nothing to close) or its event
trace is exactly open-then-close: no exit path leaves the connection
open. -/
theorem c5_connection_always_closed (beh : StoreBehavior) (q : DB → DataFrame) :
    (execute_query beh q).events = []
    ∨ (execute_query beh q).events = [ConnEvent.opened, ConnEvent.closed] := by
  cases beh with
  | connectRaises => exact Or.inl rfl
  | execRaises => exact Or.inr rfl
  | succeeds db => exact Or.inr rfl

/-- **C6 counterexample**: on `exampleDB` with both selected sets empty,
the page still displays the top-selling-products table with its one row
(`main` passes `top_selling_products` to `st.dataframe` unfiltered at
line 200), although restricting that table to the empty selected set —
what the claim asserts happens to "each of the three result tables" —
yields zero rows. -/
theorem c6_counterexample :
    mainFlow (StoreBehavior.succeeds exampleDB) (some []) (some []) = some pdC6
    ∧ pdC6.filteredCountrySales.rows = []
    ∧ pdC6.filteredCategoryProfit.rows = []
    ∧ pdC6.displayedTopProducts.rows.length = 1
    ∧ (topSellingProductsDF exampleDB).filterByCol "ProductName" [] =
        some ⟨["ProductName", "TotalSold", "TotalRevenue"], []⟩ :=
  ⟨rfl, rfl, rfl, rfl, rfl⟩

/-- **C6 (amended)**: for every pair of selected sets, the page restricts
the country-sales table to the rows whose `Country` cell is in the
selected country set and the category-profit table to the rows whose
`CategoryName` cell is in the selected category set, but displays the
top-selling-products table unfiltered. -/
theorem c6_filter_binding (beh : StoreBehavior) (selC selCat : List Value)
    (pd : PageData) (h : mainFlow beh (some selC) (some selCat) = some pd) :
    (load_sales_by_country beh).df.filterByCol "Country" selC =
      some pd.filteredCountrySales
    ∧ (load_profit_by_category beh).df.filterByCol "CategoryName" selCat =
      some pd.filteredCategoryProfit
    ∧ pd.displayedTopProducts = (load_top_selling_products beh).df := by
  unfold mainFlow at h
  rcases Option.bind_eq_some.mp h with ⟨defC, hdC, h⟩
  rcases Option.bind_eq_some.mp h with ⟨defCat, hdCat, h⟩
  rcases Option.bind_eq_some.mp h with ⟨f1, hf1, h⟩
  rcases Option.map_eq_some'.mp h with ⟨f2, hf2, rfl⟩
  exact ⟨hf1, hf2, rfl⟩

/-- **C6 witness**: the amended statement instantiated on `exampleDB`
with both selections empty. -/
theorem c6_filter_binding_witness :
    (load_sales_by_country (StoreBehavior.succeeds exampleDB)).df.filterByCol
      "Country" [] = some pdC6.filteredCountrySales
    ∧ (load_profit_by_category (StoreBehavior.succeeds exampleDB)).df.filterByCol
      "CategoryName" [] = some pdC6.filteredCategoryProfit
    ∧ pdC6.displayedTopProducts =
      (load_top_selling_products (StoreBehavior.succeeds exampleDB)).df :=
  c6_filter_binding (StoreBehavior.succeeds exampleDB) [] [] pdC6 rfl

/-- **C7**: filtering each of the three result tables by the full set of
its available key values — the deduplicated key column, as the
multiselect options are computed — reproduces the unfiltered table
exactly, row for row and in order. -/
theorem c7_full_selection_identity (db : DB) :
    (salesByCountryDF db).filterByCol "Country"
        (dedupFirst (((salesByCountryDF db).getCol "Country").getD [])) =
      some (salesByCountryDF db)
    ∧ (profitByCategoryDF db).filterByCol "CategoryName"
        (dedupFirst (((profitByCategoryDF db).getCol "CategoryName").getD [])) =
      some (profitByCategoryDF db)
    ∧ (topSellingProductsDF db).filterByCol "ProductName"
        (dedupFirst (((topSellingProductsDF db).getCol "ProductName").getD [])) =
      some (topSellingProductsDF db) :=
  ⟨filterByCol_full _ _ 0 rfl, filterByCol_full _ _ 0 rfl,
   filterByCol_full _ _ 0 rfl⟩

/-- **C8**: filtering each result table by an empty selected set yields a
table with zero rows (and the operation succeeds — no error). -/
theorem c8_empty_selection (db : DB) :
    (salesByCountryDF db).filterByCol "Country" [] =
      some ⟨["Country", "TotalSales", "TotalOrders"], []⟩
    ∧ (profitByCategoryDF db).filterByCol "CategoryName" [] =
      some ⟨["CategoryName", "Profit"], []⟩
    ∧ (topSellingProductsDF db).filterByCol "ProductName" [] =
      some ⟨["ProductName", "TotalSold", "TotalRevenue"], []⟩ :=
  ⟨filterByCol_empty _ _ 0 rfl, filterByCol_empty _ _ 0 rfl,
   filterByCol_empty _ _ 0 rfl⟩

/-- **C9**: on page load the default country selection is exactly the
first 5 countries in the descending-by-total-sales order returned by
`sales_by_country()` (they are distinct, one row per country), and the
default category selection is all distinct categories returned by
`profit_by_category()`. -/
theorem c9_default_selections (db : DB) :
    defaultCountries (salesByCountryDF db) =
      some (((salesByCountryRows db).map (fun r => Value.vstr r.country)).take 5)
    ∧ defaultCategories (profitByCategoryDF db) =
      some ((profitByCategoryRows db).map (fun r => Value.vstr r.categoryName)) := by
  constructor
  · have h0 : (salesByCountryDF db).getCol "Country" =
        some (((salesByCountryRows db).map (fun r =>
          [Value.vstr r.country, Value.vnum r.totalSales,
           Value.vnum r.totalOrders])).map (fun r => r.getD 0 (Value.vstr ""))) :=
      rfl
    have hcol : (salesByCountryDF db).getCol "Country" =
        some ((salesByCountryRows db).map (fun r => Value.vstr r.country)) := by
      rw [h0, List.map_map]
      rfl
    have hpw : ((salesByCountryRows db).map
        (fun r => Value.vstr r.country)).Pairwise (fun a b => a ≠ b) := by
      have h2 : (salesByCountryRows db).map (fun r => Value.vstr r.country) =
          ((salesByCountryRows db).map CountryRow.country).map Value.vstr := by
        rw [List.map_map]
        rfl
      rw [h2]
      apply List.pairwise_map.mpr
      exact (salesRows_country_pairwise db).imp
        (fun hne heq => hne (Value.vstr.inj heq))
    rw [defaultCountries, hcol]
    simp only [Option.map_some']
    rw [dedupFirst_eq_self _ hpw]
  · have h0 : (profitByCategoryDF db).getCol "CategoryName" =
        some (((profitByCategoryRows db).map (fun r =>
          [Value.vstr r.categoryName, Value.vnum r.profit])).map
            (fun r => r.getD 0 (Value.vstr ""))) := rfl
    have hcol : (profitByCategoryDF db).getCol "CategoryName" =
        some ((profitByCategoryRows db).map
          (fun r => Value.vstr r.categoryName)) := by
      rw [h0, List.map_map]
      rfl
    have hpw : ((profitByCategoryRows db).map
        (fun r => Value.vstr r.categoryName)).Pairwise (fun a b => a ≠ b) := by
      have h2 : (profitByCategoryRows db).map (fun r => Value.vstr r.categoryName) =
          ((profitByCategoryRows db).map CategoryRow.categoryName).map Value.vstr := by
        rw [List.map_map]
        rfl
      rw [h2]
      apply List.pairwise_map.mpr
      exact (categoryRows_name_pairwise db).imp
        (fun hne heq => hne (Value.vstr.inj heq))
    rw [defaultCategories, hcol]
    simp only [Option.map_some']
    rw [dedupFirst_eq_self _ hpw]

/-- **C10**: when the executor's error branch is taken, the loaders return
the empty zero-column table; the filter setup of `main` then indexes that
table by `Country` (resp. `CategoryName`), which is a `KeyError` —
modelled as `none` — so the whole page fails (`mainFlow` returns `none`)
rather than rendering with empty data. -/
theorem c10_error_branch_breaks_page (selC selCat : Option (List Value)) :
    (load_sales_by_country StoreBehavior.connectRaises).df.getCol "Country" = none
    ∧ (load_profit_by_category StoreBehavior.connectRaises).df.getCol
        "CategoryName" = none
    ∧ mainFlow StoreBehavior.connectRaises selC selCat = none
    ∧ mainFlow StoreBehavior.execRaises selC selCat = none :=
  ⟨rfl, rfl, rfl, rfl⟩
